import Mathlib

/-!
Verification of the Solana wallet tracker script (`src/Tracker.py`) against its
specification.  The script's JSON values are modelled by an inductive `Json`
type with Python's truthiness and container semantics; the fallible field
accesses of the Python code are modelled in the `PyM` (= `Except String`)
monad, where `.error` stands for a raised Python exception.

String primitives (strip, split, slice, int parsing) are modelled over
character lists so that every definition evaluates inside the kernel.
-/

/-- Decidable equality for `Except` results (both components decidable). -/
instance {ε α : Type _} [DecidableEq ε] [DecidableEq α] : DecidableEq (Except ε α)
  | .ok a, .ok b =>
      if h : a = b then .isTrue (by rw [h])
      else .isFalse (fun hh => h (Except.ok.inj hh))
  | .ok _, .error _ => .isFalse (fun hh => Except.noConfusion hh)
  | .error _, .ok _ => .isFalse (fun hh => Except.noConfusion hh)
  | .error a, .error b =>
      if h : a = b then .isTrue (by rw [h])
      else .isFalse (fun hh => h (Except.error.inj hh))

/-- Python ASCII whitespace, as stripped by `str.strip()` / `int(str)`. -/
def pyIsSpace (c : Char) : Bool :=
  c = ' ' || c = '\t' || c = '\n' || c = '\r' || c = '\x0b' || c = '\x0c'

/-- `str.strip()` over the character list. -/
def pyStripChars (cs : List Char) : List Char :=
  ((cs.dropWhile pyIsSpace).reverse.dropWhile pyIsSpace).reverse

/-- Python `str.strip()`. -/
def pyStrip (s : String) : String := ⟨pyStripChars s.data⟩

/-- `pat` occurs as a leading run of `text`. -/
def charsStartWith : List Char → List Char → Bool
  | [], _ => true
  | _ :: _, [] => false
  | p :: ps, c :: cs => p = c && charsStartWith ps cs

/-- Python substring test `pat in text` over character lists. -/
def charsContain : List Char → List Char → Bool
  | _, [] => true
  | [], _ :: _ => false
  | c :: cs, p :: ps => charsStartWith (p :: ps) (c :: cs) || charsContain cs (p :: ps)

/-- Python `text.split('\n')` over character lists (never returns an empty
list: splitting the empty string yields one empty piece, as in Python). -/
def splitOnNewline : List Char → List Char → List String
  | [], acc => [⟨acc.reverse⟩]
  | '\n' :: rest, acc => (⟨acc.reverse⟩ : String) :: splitOnNewline rest []
  | c :: rest, acc => splitOnNewline rest (c :: acc)

/-- Python string slice `s[:n]`. -/
def pyTake (s : String) (n : Nat) : String := ⟨s.data.take n⟩

/-- Value of a nonempty all-digit run (`none` when empty or a non-digit
appears), accumulator form. -/
def decDigitsGo : List Char → Nat → Option Nat
  | [], acc => some acc
  | c :: rest, acc =>
      if c.isDigit then decDigitsGo rest (acc * 10 + (c.toNat - 48)) else none

/-- Decimal digits to a natural number; `none` on the empty list. -/
def decDigits (cs : List Char) : Option Nat :=
  if cs.isEmpty then none else decDigitsGo cs 0

/-- Python `int(s)` for a string: optional sign, decimal digits, surrounding
whitespace allowed; `none` models `ValueError`. -/
def pyParseInt (s : String) : Option Int :=
  match pyStripChars s.data with
  | '-' :: rest => (decDigits rest).map (fun n => -(n : Int))
  | '+' :: rest => (decDigits rest).map (fun n => (n : Int))
  | cs => (decDigits cs).map (fun n => (n : Int))

/-- JSON values, as produced by `response.json()`.  Numbers are modelled as
exact rationals (every numeric literal appearing in the verified claims is
exactly representable as a Python int/float). -/
inductive Json where
  | null
  | bool (b : Bool)
  | num (q : ℚ)
  | str (s : String)
  | arr (items : List Json)
  | obj (fields : List (String × Json))

/-- Python truthiness of a JSON value (`if x:`). -/
def Json.truthy : Json → Bool
  | .null => false
  | .bool b => b
  | .num q => decide (q ≠ 0)
  | .str s => decide (s ≠ "")
  | .arr items => !items.isEmpty
  | .obj fields => !fields.isEmpty

/-- Errors raised by the modelled Python operations. -/
abbrev PyM := Except String

/-- Python `key in j` for a string `key` (dict key membership, list element
membership, substring test; `TypeError` on non-containers). -/
def Json.hasKey : Json → String → PyM Bool
  | .obj fields, k => .ok (fields.any (fun p => p.1 = k))
  | .arr items, k =>
      .ok (items.any (fun x => match x with | .str s => s = k | _ => false))
  | .str s, k => .ok (charsContain s.data k.data)
  | _, _ => .error "TypeError"

/-- Python `j[key]` for a string `key`: dict lookup (KeyError when missing),
`TypeError` on every other JSON value (string/list subscripts must be ints). -/
def Json.item : Json → String → PyM Json
  | .obj fields, k =>
      match fields.find? (fun p => p.1 = k) with
      | some p => .ok p.2
      | none => .error ("KeyError: " ++ k)
  | _, _ => .error "TypeError"

/-- Python `j[i]` for a nonnegative int `i` on a list (`IndexError` out of
bounds); other values are `TypeError` (dict int keys never occur here). -/
def Json.itemAt : Json → Nat → PyM Json
  | .arr items, i =>
      match items.get? i with
      | some x => .ok x
      | none => .error "IndexError"
  | _, _ => .error "TypeError"

/-- Python `j.get(key, default)` (dict method; `AttributeError` otherwise). -/
def Json.getDefault : Json → String → Json → PyM Json
  | .obj fields, k, dflt =>
      .ok (match fields.find? (fun p => p.1 = k) with
           | some p => p.2
           | none => dflt)
  | _, _, _ => .error "AttributeError"

/-- A JSON value used as an arithmetic operand (Python int/float/bool;
`TypeError` otherwise). -/
def Json.asNum : Json → PyM ℚ
  | .num q => .ok q
  | .bool b => .ok (if b then 1 else 0)
  | _ => .error "TypeError"

/-- Iterating a JSON value as a Python list.  (Python would also iterate the
characters of a string or the keys of a dict; no claim exercises that, so the
model raises `TypeError` for them.) -/
def Json.asArr : Json → PyM (List Json)
  | .arr items => .ok items
  | _ => .error "TypeError"

/-- Python `j == s` for a string `s`: true exactly when `j` is that string
(comparison between a str and any other JSON value is `False`, never an
error). -/
def Json.eqStr : Json → String → Bool
  | .str t, s => t = s
  | _, _ => false

/-- Python `int(x)`: bools and numbers truncate toward zero, strings are
parsed as decimal integers (`ValueError` on parse failure), everything else is
a `TypeError`. -/
def pyInt : Json → PyM Int
  | .bool b => .ok (if b then 1 else 0)
  | .num q => .ok (if q < 0 then ⌈q⌉ else ⌊q⌋)
  | .str s =>
      match pyParseInt s with
      | some n => .ok n
      | none => .error "ValueError"
  | _ => .error "TypeError"

/-- Python `10 ** e` for a numeric exponent; modelled only for integral `e`
(the `decimals` field of a parsed token amount is always an int; a fractional
exponent would produce a float power, outside this model). -/
def pyPow10 (e : ℚ) : PyM ℚ :=
  if e.den = 1 then .ok ((10 : ℚ) ^ e.num) else .error "TypeError"

/-- Python `x[:8]` as used on the mint field; modelled for strings (the mint
of a parsed token transfer is always a string). -/
def pySlice8 : Json → PyM String
  | .str s => .ok (pyTake s 8)
  | _ => .error "TypeError"


/-!
## Proxy pool and RPC client (`src/Tracker.py` lines 17-47)

Network effects are modelled by explicit inputs: `fetch_proxy_list` takes the
outcome of the HTTP GET (`none` = `requests.exceptions.RequestException`,
`some body` = the 2xx response text), and `api_request` takes a `transport`
function giving the outcome of each `requests.post` (`none` = transport
failure, `some j` = 2xx response with JSON body `j`) together with a `pick`
function standing for `random.choice`'s index choices.
-/

/-- The proxies dict built by `get_proxies` (lines 26-29). -/
structure ProxyDict where
  http : String
  https : String
deriving DecidableEq

/-- `get_proxies(proxy)` (lines 26-29): a dict when `proxy` is truthy
(nonempty), `None` otherwise. -/
def get_proxies (proxy : String) : Option ProxyDict :=
  if proxy ≠ "" then some ⟨"http://" ++ proxy, "http://" ++ proxy⟩ else none

/-- `fetch_proxy_list()` (lines 17-24): on success, the response text is
stripped, split on newlines and capped at 10 entries; on a request exception
the empty list is returned. -/
def fetch_proxy_list (response : Option String) : List String :=
  match response with
  | none => []
  | some text => (splitOnNewline (pyStrip text).data []).take 10

/-- The `proxies` argument of one attempt of `api_request` (lines 33-38):
`random.choice(proxies_list)` fed to `get_proxies` when the pool is truthy
(nonempty), `None` otherwise.  `choice` is the random index. -/
def select_proxy (proxies_list : List String) (choice : Nat) : Option ProxyDict :=
  if proxies_list.isEmpty then none
  else get_proxies (proxies_list.getD (choice % proxies_list.length) "")

/-- The retry loop of `api_request` (lines 32-47).  `fuel` counts the
remaining iterations of `for attempt in range(retries + 1)`; the returned
list records, in order, the `proxies` argument passed to `requests.post` at
each attempt actually made (so its length is the number of attempts). -/
def api_request_loop (payload : Json) (proxies_list : List String)
    (pick : Nat → Nat) (transport : Json → Nat → Option ProxyDict → Option Json) :
    Nat → Nat → Option Json × List (Option ProxyDict)
  | _, 0 => (none, [])
  | attempt, fuel + 1 =>
      let proxies := select_proxy proxies_list (pick attempt)
      match transport payload attempt proxies with
      | some body => (some body, [proxies])
      | none =>
          let r := api_request_loop payload proxies_list pick transport (attempt + 1) fuel
          (r.1, proxies :: r.2)

/-- `api_request(payload, proxies_list, retries)` (lines 31-47); the source's
default is `retries = 2`.  First component: the returned JSON (`none` when
every attempt failed); second component: the per-attempt `proxies` trace. -/
def api_request (payload : Json) (proxies_list : List String) (pick : Nat → Nat)
    (transport : Json → Nat → Option ProxyDict → Option Json) (retries : Nat) :
    Option Json × List (Option ProxyDict) :=
  api_request_loop payload proxies_list pick transport 0 (retries + 1)

/-!
## Transaction parser (`src/Tracker.py` lines 103-153)
-/

/-- A hashable Python value usable as a dict key.  Python compares `True`
with `1` and `False` with `0` as equal keys, so bools collapse into
numbers; lists and dicts are unhashable (`TypeError` on use as a key). -/
inductive PyKey where
  | none_
  | num (q : ℚ)
  | str (s : String)
deriving DecidableEq

/-- A JSON value used as a Python dict key. -/
def pyKey : Json → PyM PyKey
  | .null => .ok .none_
  | .bool b => .ok (.num (if b then 1 else 0))
  | .num q => .ok (.num q)
  | .str s => .ok (.str s)
  | _ => .error "TypeError: unhashable"

/-- Python dict assignment `d[k] = v` on an insertion-ordered association
list: an existing key is updated in place, a new key is appended. -/
def upsert : List (PyKey × ℚ) → PyKey → ℚ → List (PyKey × ℚ)
  | [], k, v => [(k, v)]
  | (k0, v0) :: rest, k, v =>
      if k0 = k then (k0, v) :: rest else (k0, v0) :: upsert rest k v

/-- Two-digit zero padding for `strftime`. -/
def pad2 (n : Nat) : String := if n < 10 then "0" ++ toString n else toString n

/-- Civil date (year, month, day) of a day count relative to 1970-01-01
(standard era-based conversion, matching the proleptic Gregorian calendar
used by `datetime`). -/
def civilFromDays (days : Int) : Int × Nat × Nat :=
  let z := days + 719468
  let era := Int.fdiv z 146097
  let doe := (z - era * 146097).toNat
  let yoe := (doe - doe / 1460 + doe / 36524 - doe / 146096) / 365
  let doy := doe - (365 * yoe + yoe / 4 - yoe / 100)
  let mp := (5 * doy + 2) / 153
  let d := doy - (153 * mp + 2) / 5 + 1
  let m := if mp < 10 then mp + 3 else mp - 9
  ((yoe : Int) + era * 400 + (if m ≤ 2 then 1 else 0), m, d)

/-- Modelled from `datetime.fromtimestamp(ts).strftime("%Y-%m-%d %H:%M:%S")`
(line 116), taking the process-local timezone to be UTC.  `strftime` without
`%f` drops the fractional second, i.e. uses the floor of the timestamp. -/
def formatTimestamp (ts : ℚ) : String :=
  let total : Int := ⌊ts⌋
  let days : Int := Int.fdiv total 86400
  let secs : Nat := (total - 86400 * days).toNat
  let ymd := civilFromDays days
  toString ymd.1 ++ "-" ++ pad2 ymd.2.1 ++ "-" ++ pad2 ymd.2.2 ++ " " ++
    pad2 (secs / 3600) ++ ":" ++ pad2 (secs % 3600 / 60) ++ ":" ++ pad2 (secs % 60)

/-- The `transfer_info` dict (lines 118, 140-150). -/
structure TransferInfo where
  type : String
  amount : ℚ
  recipient : Json

/-- The dict returned by `parse_transaction` (line 153). -/
structure ParsedTx where
  date : String
  signature : String
  type : String
  amount : ℚ
  recipient : Json
  net_change_sol : ℚ
  net_changes_token : List (PyKey × ℚ)

/-- The generator `next((i for i, acct in enumerate(accounts) if
acct['pubkey'] == wallet_address), None)` (line 123): the first index whose
entry's `pubkey` equals the wallet; evaluation is lazy, so entries after the
first match are never touched. -/
def findWalletIndex : List Json → String → Nat → PyM (Option Nat)
  | [], _, _ => .ok none
  | acct :: rest, wallet, i => do
      let pk ← acct.item "pubkey"
      if pk.eqStr wallet then pure (some i) else findWalletIndex rest wallet (i + 1)

/-- Lines 119-125: `net_change_sol` — the pre/post balance difference at the
wallet's index, scaled by 1e9, or 0 when the guard fails or the wallet is not
among the account keys. -/
def computeNetChangeSol (tx : Json) (wallet_address : String) : PyM ℚ := do
  let c1 ← tx.hasKey "meta"
  let cond ← if c1 then do
      let meta ← tx.item "meta"
      let c2 ← meta.hasKey "preBalances"
      if c2 then meta.hasKey "postBalances" else pure false
    else pure false
  if cond then
    let txn ← tx.item "transaction"
    let msg ← txn.item "message"
    let accounts ← (← msg.item "accountKeys").asArr
    match ← findWalletIndex accounts wallet_address 0 with
    | some i => do
        let meta ← tx.item "meta"
        let postJ ← (← meta.item "postBalances").itemAt i
        let metaB ← tx.item "meta"
        let preJ ← (← metaB.item "preBalances").itemAt i
        let post ← postJ.asNum
        let pre ← preJ.asNum
        pure ((post - pre) / 1000000000)
    | none => pure 0
  else pure 0

/-- The body of the loop over `zip(pre, post)` token balance snapshots
(lines 128-133), with the accumulated `net_changes_token` dict. -/
def tokenDeltaLoop (wallet_address : String) :
    List (Json × Json) → List (PyKey × ℚ) → PyM (List (PyKey × ℚ))
  | [], acc => pure acc
  | (pre, post) :: rest, acc => do
      let preOwner ← pre.item "owner"
      if preOwner.eqStr wallet_address then
        let postOwner ← post.item "owner"
        if postOwner.eqStr wallet_address then
          let mint ← pre.item "mint"
          let postAmtJ ← (← post.item "uiTokenAmount").item "uiAmount"
          let preAmtJ ← (← pre.item "uiTokenAmount").item "uiAmount"
          let postAmt ← postAmtJ.asNum
          let preAmt ← preAmtJ.asNum
          let delta := postAmt - preAmt
          if delta ≠ 0 then do
            let key ← pyKey mint
            tokenDeltaLoop wallet_address rest (upsert acc key delta)
          else tokenDeltaLoop wallet_address rest acc
        else tokenDeltaLoop wallet_address rest acc
      else tokenDeltaLoop wallet_address rest acc

/-- Lines 127-133: `net_changes_token` — per-mint deltas for snapshot pairs
owned by the wallet on both sides, keeping only nonzero deltas; the snapshot
lists are paired positionally by `zip`, which stops at the shorter list. -/
def computeTokenDeltas (tx : Json) (wallet_address : String) :
    PyM (List (PyKey × ℚ)) := do
  let c1 ← tx.hasKey "meta"
  let cond ← if c1 then do
      let meta ← tx.item "meta"
      let c2 ← meta.hasKey "preTokenBalances"
      if c2 then meta.hasKey "postTokenBalances" else pure false
    else pure false
  if cond then
    let meta ← tx.item "meta"
    let pres ← (← meta.item "preTokenBalances").asArr
    let metaB ← tx.item "meta"
    let posts ← (← metaB.item "postTokenBalances").asArr
    tokenDeltaLoop wallet_address (pres.zip posts) []
  else pure []

/-- The `transfer_info` default of line 118. -/
def defaultTransferInfo : TransferInfo := ⟨"Unknown", 0, Json.str "N/A"⟩

/-- The instruction scan (lines 135-151): the first instruction carrying a
`parsed` field of type `"transfer"` stops the loop (`break`); a native
transfer yields the lamports amount scaled by 1e9, a token transfer yields
the raw amount scaled by `10 ** decimals` (default 9); a transfer-typed
instruction matching neither branch leaves the default in place but still
stops the loop. -/
def scanInstructions : List Json → PyM TransferInfo
  | [] => pure defaultTransferInfo
  | instr :: rest => do
      let hasParsed ← instr.hasKey "parsed"
      if hasParsed then
        let parsed ← instr.item "parsed"
        let ty ← parsed.item "type"
        if ty.eqStr "transfer" then
          let info ← parsed.item "info"
          let hasLamports ← info.hasKey "lamports"
          if hasLamports then
            let lamports ← (← info.item "lamports").asNum
            let dest ← info.item "destination"
            pure ⟨"SOL Transfer", lamports / 1000000000, dest⟩
          else
            let hasAmount ← info.hasKey "amount"
            let cond ← if hasAmount then info.hasKey "mint" else pure false
            if cond then
              let mintJ ← info.item "mint"
              let mint8 ← pySlice8 mintJ
              let amtI ← pyInt (← info.item "amount")
              let decJ ← info.getDefault "decimals" (Json.num 9)
              let dec ← decJ.asNum
              let scale ← pyPow10 dec
              let dest ← info.item "destination"
              pure ⟨"Token Transfer (" ++ mint8 ++ "...)", (amtI : ℚ) / scale, dest⟩
            else pure defaultTransferInfo
        else scanInstructions rest
      else scanInstructions rest

/-- `tx['transaction']['message']['instructions']` (line 135), as the list
iterated by the scan. -/
def txInstructions (tx : Json) : PyM (List Json) := do
  let txn ← tx.item "transaction"
  let msg ← txn.item "message"
  (← msg.item "instructions").asArr

/-- Line 116: `datetime.fromtimestamp(timestamp).strftime(...) if timestamp
else "N/A"` — a truthy block time is formatted (a non-numeric one raises in
`fromtimestamp`), a falsy one renders `"N/A"`. -/
def computeDate (timestamp : Json) : PyM String :=
  if timestamp.truthy then do
    let t ← timestamp.asNum
    pure (formatTimestamp t)
  else pure "N/A"

/-- Lines 114-153 of `parse_transaction`, after the guard: the work done on a
truthy `result` record. -/
def parse_body (tx : Json) (signature wallet_address : String) :
    PyM (Option ParsedTx) := do
  let timestamp ← tx.item "blockTime"
  let date ← computeDate timestamp
  let net_change_sol ← computeNetChangeSol tx wallet_address
  let net_changes_token ← computeTokenDeltas tx wallet_address
  let instructions ← txInstructions tx
  let ti ← scanInstructions instructions
  pure (some ⟨date, signature, ti.type, ti.amount, ti.recipient,
              net_change_sol, net_changes_token⟩)

/-- `parse_transaction(signature, proxies_list, wallet_address)`
(lines 103-153).  `data` is the `api_request` outcome (`none` = the RPC call
returned `None`).  Returns `.ok none` exactly when the guard on line 111
fires: `not data or 'result' not in data or not data['result']`. -/
def parse_transaction (data : Option Json) (signature wallet_address : String) :
    PyM (Option ParsedTx) :=
  match data with
  | none => pure none
  | some d =>
      if !d.truthy then pure none
      else do
        let hasRes ← d.hasKey "result"
        if !hasRes then pure none
        else do
          let tx ← d.item "result"
          if !tx.truthy then pure none
          else parse_body tx signature wallet_address

/-- The wallet-address validity flag of lines 179-180: the error banner fires
iff the input is truthy (nonempty) and its length is not in `[32, 44]`. -/
def wallet_address_invalid (wallet_input : String) : Bool :=
  decide (wallet_input ≠ "") && !(wallet_input.length ∈ [32, 44] : Bool)

/-!
## Fabricated records and spec-side predicates used by the claims
-/

/-- A successful JSON-RPC response carrying `record` in its `result` field. -/
def rpcResp (record : Json) : Json := Json.obj [("result", record)]

/-- An account-keys entry. -/
def mkAcct (pk : String) : Json := Json.obj [("pubkey", Json.str pk)]

/-- The `transaction` field of a record: a message with the given account
keys and instructions. -/
def mkMessage (accounts instrs : List Json) : Json :=
  Json.obj [("message",
    Json.obj [("accountKeys", Json.arr accounts), ("instructions", Json.arr instrs)])]

/-- A minimal finalized record carrying only an instruction list (null block
time, no `meta`). -/
def mkInstrRecord (instrs : List Json) : Json :=
  Json.obj [("blockTime", Json.null), ("transaction", mkMessage [] instrs)]

/-- A minimal record with the given `blockTime` value. -/
def mkTimeRecord (bt : Json) : Json :=
  Json.obj [("blockTime", bt), ("transaction", mkMessage [] [])]

/-- A record whose `blockTime` key is missing altogether. -/
def noBlockTimeRecord : Json := Json.obj [("transaction", mkMessage [] [])]

/-- A record with pre/post native balance snapshots and the given account
keys. -/
def mkBalRecord (accts : List String) (pres posts : List ℚ) : Json :=
  Json.obj [("blockTime", Json.null),
    ("meta", Json.obj [("preBalances", Json.arr (pres.map Json.num)),
                       ("postBalances", Json.arr (posts.map Json.num))]),
    ("transaction", mkMessage (accts.map mkAcct) [])]

/-- A token balance snapshot entry. -/
def tokenSnap (owner mint : String) (ui : ℚ) : Json :=
  Json.obj [("owner", Json.str owner), ("mint", Json.str mint),
            ("uiTokenAmount", Json.obj [("uiAmount", Json.num ui)])]

/-- A record with pre/post token balance snapshots. -/
def mkTokRecord (pres posts : List Json) : Json :=
  Json.obj [("blockTime", Json.null),
    ("meta", Json.obj [("preTokenBalances", Json.arr pres),
                       ("postTokenBalances", Json.arr posts)]),
    ("transaction", mkMessage [] [])]

/-- A parsed native-asset (SOL) transfer instruction. -/
def nativeTransferInstr (lamports : ℚ) (dest : String) : Json :=
  Json.obj [("parsed", Json.obj [("type", Json.str "transfer"),
    ("info", Json.obj [("lamports", Json.num lamports),
                       ("destination", Json.str dest)])])]

/-- A parsed token transfer instruction (the raw amount is the decimal string
the `jsonParsed` encoding produces; `decimals` may be omitted). -/
def tokenTransferInstr (mint amount : String) (decimals : Option ℚ) (dest : String) : Json :=
  Json.obj [("parsed", Json.obj [("type", Json.str "transfer"),
    ("info", Json.obj ([("amount", Json.str amount), ("mint", Json.str mint)] ++
       (match decimals with | some d => [("decimals", Json.num d)] | none => []) ++
       [("destination", Json.str dest)]))])]

/-- The exact condition under which the line-111 guard fires (written from
the code's `not data or 'result' not in data or not data['result']`): the RPC
call failed, or the response is falsy, or the membership test succeeds
negatively, or the `result` lookup succeeds with a falsy record. -/
def absentCheck : Option Json → Bool
  | none => true
  | some d =>
      if !d.truthy then true
      else match d.hasKey "result" with
        | .ok false => true
        | .ok true =>
            (match d.item "result" with
             | .ok r => !r.truthy
             | .error _ => false)
        | .error _ => false

/-- An instruction the scan loop steps over without stopping: its `parsed`
membership test evaluates false, or its parsed type evaluates to something
other than `"transfer"`. -/
def instrSkipped (instr : Json) : Bool :=
  match instr.hasKey "parsed" with
  | .ok false => true
  | .ok true =>
      (match instr.item "parsed" with
       | .ok parsed =>
           (match parsed.item "type" with
            | .ok ty => !ty.eqStr "transfer"
            | .error _ => false)
       | .error _ => false)
  | .error _ => false

/-- An instruction whose parsed type is recognized as `"transfer"` (the scan
loop stops at the first such instruction). -/
def instrIsTransfer (instr : Json) : Bool :=
  match instr.hasKey "parsed" with
  | .ok true =>
      (match instr.item "parsed" with
       | .ok parsed =>
           (match parsed.item "type" with
            | .ok ty => ty.eqStr "transfer"
            | .error _ => false)
       | .error _ => false)
  | _ => false

/-!
## Lemmas about the retry loop
-/

/-- If the transport fails at the first `k` attempt indices and succeeds at
the next one, the loop returns that success after exactly `k + 1` attempts. -/
theorem api_request_loop_fail_then_ok
    (payload : Json) (proxies_list : List String) (pick : Nat → Nat)
    (transport : Json → Nat → Option ProxyDict → Option Json) (j : Json) :
    ∀ (k attempt fuel : Nat), k < fuel →
    (∀ i p, i < k → transport payload (attempt + i) p = none) →
    (∀ p, transport payload (attempt + k) p = some j) →
    (api_request_loop payload proxies_list pick transport attempt fuel).1 = some j ∧
    (api_request_loop payload proxies_list pick transport attempt fuel).2.length = k + 1 := by
  intro k
  induction k with
  | zero =>
      intro attempt fuel hk hfail hsucc
      cases fuel with
      | zero => omega
      | succ f =>
          have hs := hsucc (select_proxy proxies_list (pick attempt))
          rw [Nat.add_zero] at hs
          simp [api_request_loop, hs]
  | succ k ih =>
      intro attempt fuel hk hfail hsucc
      cases fuel with
      | zero => omega
      | succ f =>
          have h0 := hfail 0 (select_proxy proxies_list (pick attempt)) (by omega)
          rw [Nat.add_zero] at h0
          have ihh := ih (attempt + 1) f (by omega)
            (fun i p hi => by
              have := hfail (i + 1) p (by omega)
              rwa [show attempt + (i + 1) = attempt + 1 + i by omega] at this)
            (fun p => by
              have := hsucc p
              rwa [show attempt + (k + 1) = attempt + 1 + k by omega] at this)
          simp [api_request_loop, h0, ihh.1, ihh.2]

/-- If the transport fails at every index of the window, the loop returns
`None` after exactly `fuel` attempts. -/
theorem api_request_loop_all_fail
    (payload : Json) (proxies_list : List String) (pick : Nat → Nat)
    (transport : Json → Nat → Option ProxyDict → Option Json) :
    ∀ (fuel attempt : Nat),
    (∀ i p, i < fuel → transport payload (attempt + i) p = none) →
    (api_request_loop payload proxies_list pick transport attempt fuel).1 = none ∧
    (api_request_loop payload proxies_list pick transport attempt fuel).2.length = fuel := by
  intro fuel
  induction fuel with
  | zero => intro attempt _; simp [api_request_loop]
  | succ f ih =>
      intro attempt hfail
      have h0 := hfail 0 (select_proxy proxies_list (pick attempt)) (by omega)
      rw [Nat.add_zero] at h0
      have ihh := ih (attempt + 1)
        (fun i p hi => by
          have := hfail (i + 1) p (by omega)
          rwa [show attempt + (i + 1) = attempt + 1 + i by omega] at this)
      simp [api_request_loop, h0, ihh.1, ihh.2]

/-- C1.  For every payload and proxy pool, if the transport fails exactly `k`
times and then succeeds with `k ≤ retries` (the source default is
`retries = 2`), `api_request` returns the successful JSON payload after
`k + 1` attempts; if the transport fails at all `retries + 1` attempt
indices, `api_request` returns `None` after making exactly `retries + 1`
attempts. -/
theorem api_request_retry_spec
    (payload : Json) (proxies_list : List String) (pick : Nat → Nat)
    (transport : Json → Nat → Option ProxyDict → Option Json)
    (retries k : Nat) (j : Json) :
    (k ≤ retries →
     (∀ i p, i < k → transport payload i p = none) →
     (∀ p, transport payload k p = some j) →
     (api_request payload proxies_list pick transport retries).1 = some j ∧
     (api_request payload proxies_list pick transport retries).2.length = k + 1)
    ∧ ((∀ i p, i ≤ retries → transport payload i p = none) →
     (api_request payload proxies_list pick transport retries).1 = none ∧
     (api_request payload proxies_list pick transport retries).2.length = retries + 1) := by
  constructor
  · intro hk hfail hsucc
    have := api_request_loop_fail_then_ok payload proxies_list pick transport j
      k 0 (retries + 1) (by omega)
      (fun i p hi => by simpa using hfail i p hi)
      (fun p => by simpa using hsucc p)
    exact this
  · intro hfail
    have := api_request_loop_all_fail payload proxies_list pick transport
      (retries + 1) 0 (fun i p hi => by simpa using hfail i p (by omega))
    exact this

/-- A transport that fails on attempt 0 and succeeds afterwards. -/
def witTransport : Json → Nat → Option ProxyDict → Option Json :=
  fun _ attempt _ => if attempt = 0 then none else some (Json.str "ok")

/-- Witness for C1: one failure then success with `retries = 2` yields the
payload in 2 attempts. -/
theorem api_request_retry_witness :
    (api_request Json.null [] (fun _ => 0) witTransport 2).1 = some (Json.str "ok") ∧
    (api_request Json.null [] (fun _ => 0) witTransport 2).2.length = 2 :=
  (api_request_retry_spec Json.null [] (fun _ => 0) witTransport 2 1 (Json.str "ok")).1
    (by omega)
    (fun i p hi => by
      have h0 : i = 0 := by omega
      subst h0; rfl)
    (fun p => rfl)

/-!
## Proxy pool claims
-/

theorem select_proxy_nil (c : Nat) : select_proxy [] c = none := by
  simp [select_proxy]

theorem select_proxy_empty_string (c : Nat) : select_proxy [""] c = none := by
  simp [select_proxy, get_proxies, Nat.mod_one]

/-- When every attempt's proxy selection is `None`, the whole attempt trace
records `None` proxies. -/
theorem api_request_loop_trace_none
    (payload : Json) (proxies_list : List String) (pick : Nat → Nat)
    (transport : Json → Nat → Option ProxyDict → Option Json)
    (hsel : ∀ c, select_proxy proxies_list c = none) :
    ∀ (fuel attempt : Nat),
    (api_request_loop payload proxies_list pick transport attempt fuel).2.all
      Option.isNone = true := by
  intro fuel
  induction fuel with
  | zero => intro attempt; simp [api_request_loop]
  | succ f ih =>
      intro attempt
      have hs := hsel (pick attempt)
      rcases h : transport payload attempt none with _ | b
      · have ihh := ih (attempt + 1)
        simp only [List.all_eq_true, Option.isNone_iff_eq_none] at ihh
        simp [api_request_loop, hs, h]
        exact ihh
      · simp [api_request_loop, hs, h]

/-- Counterexample to C7: a proxy source that successfully returns zero
lines (an empty body) does NOT give an empty sequence — `str.split('\n')`
never returns an empty list, so `fetch_proxy_list` returns `['']`. -/
theorem fetch_proxy_list_counterexample :
    fetch_proxy_list (some "") = [""] ∧ ([""] : List String) ≠ [] := by
  refine ⟨by decide, by decide⟩

/-- C7 as amended.  On fetch failure `fetch_proxy_list` returns the empty
sequence; on a successful fetch with an empty body it returns `['']`, a
one-element list holding the empty string.  `api_request` never fails for
lack of proxies: with the empty pool the guard picks no proxy, and with the
`['']` pool `get_proxies('')` still yields `None`, so in both cases every
attempt is issued with `proxies = None`. -/
theorem fetch_proxy_list_spec :
    fetch_proxy_list none = [] ∧
    fetch_proxy_list (some "") = [""] ∧
    (∀ payload pick transport retries,
      (api_request payload [] pick transport retries).2.all Option.isNone = true) ∧
    (∀ payload pick transport retries,
      (api_request payload [""] pick transport retries).2.all Option.isNone = true) := by
  refine ⟨rfl, by decide, ?_, ?_⟩
  · intro payload pick transport retries
    exact api_request_loop_trace_none payload [] pick transport
      select_proxy_nil (retries + 1) 0
  · intro payload pick transport retries
    exact api_request_loop_trace_none payload [""] pick transport
      select_proxy_empty_string (retries + 1) 0

/-!
## Wallet address validity check
-/

/-- C8.  Every nonempty address whose length is neither 32 nor 44 is flagged
invalid; the check is a pure function of the string. -/
theorem wallet_address_invalid_spec (s : String) (h1 : s ≠ "")
    (h2 : s.length ≠ 32) (h3 : s.length ≠ 44) :
    wallet_address_invalid s = true := by
  simp [wallet_address_invalid, h1, h2, h3]

/-- Witness for C8 at a concrete 3-character address. -/
theorem wallet_address_invalid_witness : wallet_address_invalid "abc" = true :=
  wallet_address_invalid_spec "abc" (by decide) (by decide) (by decide)

/-!
## Lemmas about `parse_transaction`
-/

/-- Inversion for a successful monadic bind in `PyM`. -/
theorem PyM.bind_ok_iff {α β : Type} (m : PyM α) (f : α → PyM β) (b : β) :
    (m >>= f) = .ok b ↔ ∃ a, m = .ok a ∧ f a = .ok b := by
  cases m <;> simp [Bind.bind, Except.bind]

/-- After the guard, `parse_transaction` either raises or returns a summary:
`.ok none` is impossible. -/
theorem parse_body_ne_ok_none (tx : Json) (sig w : String) :
    parse_body tx sig w ≠ .ok none := by
  intro h
  unfold parse_body at h
  rw [PyM.bind_ok_iff] at h
  obtain ⟨ts, _, h⟩ := h
  rw [PyM.bind_ok_iff] at h
  obtain ⟨date, _, h⟩ := h
  rw [PyM.bind_ok_iff] at h
  obtain ⟨n, _, h⟩ := h
  rw [PyM.bind_ok_iff] at h
  obtain ⟨t, _, h⟩ := h
  rw [PyM.bind_ok_iff] at h
  obtain ⟨ins, _, h⟩ := h
  rw [PyM.bind_ok_iff] at h
  obtain ⟨ti, _, h⟩ := h
  exact Option.noConfusion (Except.ok.inj h)

/-- A skipped instruction leaves the scan unchanged. -/
theorem scanInstructions_skip (i : Json) (rest : List Json)
    (h : instrSkipped i = true) :
    scanInstructions (i :: rest) = scanInstructions rest := by
  unfold instrSkipped at h
  split at h
  · next hk => simp [scanInstructions, hk, Bind.bind, Except.bind]
  · next hk =>
      split at h
      · next parsed hp =>
          split at h
          · next ty ht =>
              simp only [Bool.not_eq_true'] at h
              simp [scanInstructions, hk, hp, ht, Bind.bind, Except.bind, h]
          · simp at h
      · simp at h
  · simp at h

/-- A scan over skipped instructions only returns the line-118 default. -/
theorem scanInstructions_all_skipped (l : List Json)
    (h : ∀ i ∈ l, instrSkipped i = true) :
    scanInstructions l = .ok defaultTransferInfo := by
  induction l with
  | nil => rfl
  | cons i rest ih =>
      rw [scanInstructions_skip i rest (h i (by simp))]
      exact ih (fun j hj => h j (by simp [hj]))

/-- The scan stops (`break`) at the first transfer-typed instruction: the
instructions after it never influence the result. -/
theorem scanInstructions_stop (i : Json) (rest : List Json)
    (h : instrIsTransfer i = true) :
    scanInstructions (i :: rest) = scanInstructions [i] := by
  unfold instrIsTransfer at h
  split at h
  · next hk =>
      split at h
      · next parsed hp =>
          split at h
          · next ty ht =>
              simp [scanInstructions, hk, hp, ht, Bind.bind, Except.bind, h]
          · simp at h
      · simp at h
  · simp at h

/-- `parse_transaction` returns Absent exactly when the line-111 guard
fires. -/
theorem parse_transaction_ok_none_iff (data : Option Json) (sig w : String) :
    parse_transaction data sig w = .ok none ↔ absentCheck data = true := by
  cases data with
  | none => simp [parse_transaction, absentCheck, pure, Except.pure]
  | some d =>
      unfold parse_transaction absentCheck
      cases htr : d.truthy with
      | false => simp [htr, pure, Except.pure]
      | true =>
          simp only [htr, Bool.not_true, Bool.false_eq_true, if_false]
          rcases hk : d.hasKey "result" with e | b
          · simp [Bind.bind, Except.bind]
          · cases b with
            | false => simp [Bind.bind, Except.bind, pure, Except.pure]
            | true =>
                rcases hi : d.item "result" with e | r
                · simp [Bind.bind, Except.bind]
                · cases hrt : r.truthy with
                  | false => simp [Bind.bind, Except.bind, hrt, pure, Except.pure]
                  | true =>
                      simp [Bind.bind, Except.bind, hrt, pure, Except.pure,
                            parse_body_ne_ok_none]

/-- Counterexample to C2: the guard tests Python falsiness, not null-ness.
With a successful RPC response whose `result` field is the (non-null, falsy)
record `false`, `parse_transaction` returns Absent even though the call
succeeded, the `result` field is present, and the record is not null. -/
theorem parse_transaction_counterexample :
    parse_transaction (some (rpcResp (Json.bool false))) "sig" "w" = .ok none
    ∧ (rpcResp (Json.bool false)).hasKey "result" = .ok true
    ∧ (rpcResp (Json.bool false)).item "result" = .ok (Json.bool false)
    ∧ Json.bool false ≠ Json.null := by
  refine ⟨by with_unfolding_all rfl, by with_unfolding_all rfl,
          by with_unfolding_all rfl, fun h => Json.noConfusion h⟩

/-- C2 as amended.  `parse_transaction` returns Absent iff the RPC call
failed, the response is falsy, the `result` membership test evaluates false,
or the `result` record is falsy (null, False, 0, an empty string/list/dict) —
not only null; and whenever it returns a summary whose record's instruction
list contains no transfer-typed instruction, that summary carries the
sentinel `"Unknown"` kind, zero amount and `"N/A"` recipient, never Absent. -/
theorem parse_transaction_absent_spec :
    (∀ (data : Option Json) (sig w : String),
      parse_transaction data sig w = .ok none ↔ absentCheck data = true)
    ∧ (∀ (data : Option Json) (sig w : String) (s : ParsedTx) (tx : Json)
        (l : List Json),
      parse_transaction data sig w = .ok (some s) →
      (data.getD Json.null).item "result" = .ok tx →
      txInstructions tx = .ok l →
      (∀ i ∈ l, instrSkipped i = true) →
      s.type = "Unknown" ∧ s.amount = 0 ∧ s.recipient = Json.str "N/A") := by
  refine ⟨parse_transaction_ok_none_iff, ?_⟩
  intro data sig w s tx l hparse hres hins hskip
  cases data with
  | none => simp [parse_transaction, pure, Except.pure] at hparse
  | some d =>
      simp only [parse_transaction] at hparse
      rcases htr : d.truthy with _ | _ <;> rw [htr] at hparse
      · simp [pure, Except.pure] at hparse
      · simp only [Bool.not_true, Bool.false_eq_true, if_false] at hparse
        rw [PyM.bind_ok_iff] at hparse
        obtain ⟨hasRes, _, hparse⟩ := hparse
        try simp only [] at hparse
        cases hasRes with
        | false => simp [pure, Except.pure] at hparse
        | true =>
            simp only [Bool.not_true, Bool.false_eq_true, if_false] at hparse
            rw [PyM.bind_ok_iff] at hparse
            obtain ⟨tx2, htx2, hparse⟩ := hparse
            try simp only [] at hparse
            have htxeq : tx2 = tx := by
              simp only [Option.getD] at hres
              rw [htx2] at hres
              exact Except.ok.inj hres
            subst htxeq
            rcases htr2 : tx2.truthy with _ | _ <;> rw [htr2] at hparse
            · simp [pure, Except.pure] at hparse
            · simp only [Bool.not_true, Bool.false_eq_true, if_false] at hparse
              unfold parse_body at hparse
              rw [PyM.bind_ok_iff] at hparse
              obtain ⟨ts, _, hparse⟩ := hparse
              try simp only [] at hparse
              rw [PyM.bind_ok_iff] at hparse
              obtain ⟨date, _, hparse⟩ := hparse
              try simp only [] at hparse
              rw [PyM.bind_ok_iff] at hparse
              obtain ⟨net, _, hparse⟩ := hparse
              try simp only [] at hparse
              rw [PyM.bind_ok_iff] at hparse
              obtain ⟨tok, _, hparse⟩ := hparse
              try simp only [] at hparse
              rw [PyM.bind_ok_iff] at hparse
              obtain ⟨ins, hins2, hparse⟩ := hparse
              try simp only [] at hparse
              have hinseq : ins = l := by
                rw [hins2] at hins
                exact Except.ok.inj hins
              subst hinseq
              rw [PyM.bind_ok_iff] at hparse
              obtain ⟨ti, hti, hparse⟩ := hparse
              rw [scanInstructions_all_skipped ins hskip] at hti
              have htieq : defaultTransferInfo = ti := Except.ok.inj hti
              rw [← htieq] at hparse
              have hs : some (⟨date, sig, defaultTransferInfo.type,
                  defaultTransferInfo.amount, defaultTransferInfo.recipient,
                  net, tok⟩ : ParsedTx) = some s := Except.ok.inj hparse
              have hs2 := Option.some.inj hs
              rw [← hs2]
              exact ⟨rfl, rfl, rfl⟩

/-- A minimal finalized empty-instruction record for the C2 witness. -/
def sampleRecord : Json := mkTimeRecord Json.null

/-- The summary `parse_transaction` produces for `sampleRecord`. -/
def sampleSummary : ParsedTx := ⟨"N/A", "sig", "Unknown", 0, Json.str "N/A", 0, []⟩

/-- Witness for C2 (amended): a resolved record with no instructions gets the
sentinel summary. -/
theorem parse_transaction_absent_witness :
    sampleSummary.type = "Unknown" ∧ sampleSummary.amount = 0 ∧
    sampleSummary.recipient = Json.str "N/A" :=
  parse_transaction_absent_spec.2 (some (rpcResp sampleRecord)) "sig" "w"
    sampleSummary sampleRecord []
    (by with_unfolding_all rfl) (by with_unfolding_all rfl)
    (by with_unfolding_all rfl) (by simp)

/-!
## Amount scaling, first-match, and net-change claims
-/

/-- C3.  In a record whose first (hence classified) transfer instruction is a
native transfer of 1,000,000,000 lamports the reported amount is 1; a token
transfer of raw amount 500 with 2 decimals reports 5; and with the decimals
field absent the scale defaults to 10^9. -/
theorem parse_amount_scaling_spec (mint dest sig w : String) (rest : List Json) :
    parse_transaction (some (rpcResp (mkInstrRecord
        (nativeTransferInstr 1000000000 dest :: rest)))) sig w
      = .ok (some ⟨"N/A", sig, "SOL Transfer", 1, Json.str dest, 0, []⟩)
    ∧ parse_transaction (some (rpcResp (mkInstrRecord
        (tokenTransferInstr mint "500" (some 2) dest :: rest)))) sig w
      = .ok (some ⟨"N/A", sig, "Token Transfer (" ++ pyTake mint 8 ++ "...)",
                   5, Json.str dest, 0, []⟩)
    ∧ parse_transaction (some (rpcResp (mkInstrRecord
        (tokenTransferInstr mint "500" none dest :: rest)))) sig w
      = .ok (some ⟨"N/A", sig, "Token Transfer (" ++ pyTake mint 8 ++ "...)",
                   500 / 10 ^ (9 : ℕ), Json.str dest, 0, []⟩) := by
  refine ⟨by with_unfolding_all rfl, by with_unfolding_all rfl,
          by with_unfolding_all rfl⟩

/-- On a minimal record, `parse_transaction` is the instruction scan wrapped
with the fixed date/net-change fields. -/
theorem parse_mkInstrRecord (instrs : List Json) (sig w : String) :
    parse_transaction (some (rpcResp (mkInstrRecord instrs))) sig w
      = (scanInstructions instrs) >>= fun ti =>
          pure (some ⟨"N/A", sig, ti.type, ti.amount, ti.recipient, 0, []⟩) := rfl

/-- Stepping over any number of skipped instructions leaves the scan
unchanged. -/
theorem scanInstructions_skip_many (l1 rest : List Json)
    (hskip : ∀ j ∈ l1, instrSkipped j = true) :
    scanInstructions (l1 ++ rest) = scanInstructions rest := by
  induction l1 with
  | nil => rfl
  | cons a t ih =>
      rw [List.cons_append, scanInstructions_skip a _ (hskip a (by simp))]
      exact ih (fun j hj => hskip j (by simp [hj]))

/-- C4.  When the instruction list consists of skipped instructions, then a
transfer-typed instruction `i`, then anything, the parsed summary is the one
obtained with everything after `i` removed: only the first recognized
transfer is reflected, later instructions are ignored. -/
theorem parse_first_transfer_spec (l1 l2 : List Json) (i : Json) (sig w : String)
    (hskip : ∀ j ∈ l1, instrSkipped j = true) (htr : instrIsTransfer i = true) :
    parse_transaction (some (rpcResp (mkInstrRecord (l1 ++ i :: l2)))) sig w
      = parse_transaction (some (rpcResp (mkInstrRecord (l1 ++ [i])))) sig w := by
  rw [parse_mkInstrRecord, parse_mkInstrRecord,
      scanInstructions_skip_many l1 _ hskip, scanInstructions_skip_many l1 _ hskip,
      scanInstructions_stop i l2 htr]

/-- Witness for C4: a record with a skipped instruction, then a transfer of
7 lamports, then a transfer of 9 lamports parses identically to the record
with the trailing transfer removed. -/
theorem parse_first_transfer_witness :
    parse_transaction (some (rpcResp (mkInstrRecord
        ([Json.obj []] ++ nativeTransferInstr 7 "D" :: [nativeTransferInstr 9 "E"])))) "s" "w"
      = parse_transaction (some (rpcResp (mkInstrRecord
        ([Json.obj []] ++ [nativeTransferInstr 7 "D"])))) "s" "w" :=
  parse_first_transfer_spec [Json.obj []] [nativeTransferInstr 9 "E"]
    (nativeTransferInstr 7 "D") "s" "w"
    (fun j hj => by
      rw [List.mem_singleton] at hj
      subst hj
      with_unfolding_all rfl)
    (by with_unfolding_all rfl)

/-- `computeNetChangeSol` on a balance record reduces to the wallet search
followed by the balance difference. -/
theorem computeNetChangeSol_mkBalRecord (accts : List String)
    (pres posts : List ℚ) (w : String) :
    computeNetChangeSol (mkBalRecord accts pres posts) w
      = (findWalletIndex (accts.map mkAcct) w 0 >>= fun wi =>
          match wi with
          | some i =>
              (Json.arr (posts.map Json.num)).itemAt i >>= fun postJ =>
              (Json.arr (pres.map Json.num)).itemAt i >>= fun preJ =>
              postJ.asNum >>= fun post =>
              preJ.asNum >>= fun pre =>
              pure ((post - pre) / 1000000000)
          | none => pure 0) := rfl

/-- The wallet search resolves to the index right after the `l1` block when
the wallet is not in `l1`. -/
theorem findWalletIndex_found (l1 l2 : List String) (w : String) (hw : w ∉ l1) :
    ∀ i : Nat, findWalletIndex ((l1 ++ w :: l2).map mkAcct) w i
      = .ok (some (i + l1.length)) := by
  induction l1 with
  | nil =>
      intro i
      simp [findWalletIndex, mkAcct, Json.item, Json.eqStr, Bind.bind,
            Except.bind, pure, Except.pure]
  | cons a t ih =>
      intro i
      have ha : (a = w) = False := by
        simp only [eq_iff_iff, iff_false]
        intro hh
        exact hw (by simp [hh])
      have iht := ih (fun hh => hw (by simp [hh])) (i + 1)
      simp only [List.cons_append, List.map_cons]
      simp [findWalletIndex, mkAcct, Json.item, Json.eqStr, Bind.bind,
            Except.bind, ha]
      simp only [List.map_append, List.map_cons, mkAcct] at iht
      rw [iht]
      congr 2
      omega

/-- The wallet search returns `None` when no account entry carries the
wallet. -/
theorem findWalletIndex_not_found (accts : List String) (w : String)
    (hw : w ∉ accts) : ∀ i : Nat, findWalletIndex (accts.map mkAcct) w i = .ok none := by
  induction accts with
  | nil => intro i; rfl
  | cons a t ih =>
      intro i
      have ha : (a = w) = False := by
        simp only [eq_iff_iff, iff_false]
        intro hh
        exact hw (by simp [hh])
      simp [findWalletIndex, mkAcct, Json.item, Json.eqStr, Bind.bind,
            Except.bind, ha, ih (fun hh => hw (by simp [hh])) (i + 1)]

/-- Indexing a mapped numeric snapshot list. -/
theorem itemAt_map_num (qs : List ℚ) (n : Nat) (q : ℚ)
    (h : qs.get? n = some q) :
    (Json.arr (qs.map Json.num)).itemAt n = .ok (Json.num q) := by
  rw [List.get?_eq_getElem?] at h
  simp [Json.itemAt, List.getElem?_map, h]

/-- C5.  With the wallet at index `l1.length` of the account keys, the net
SOL delta is the post/pre balance difference at that index divided by 1e9;
concretely, pre 2,000,000,000 and post 1,500,000,000 give −0.5. -/
theorem net_change_sol_spec (l1 l2 : List String) (w sig : String)
    (pres posts : List ℚ) (preQ postQ : ℚ) (hw : w ∉ l1)
    (hpre : pres.get? l1.length = some preQ)
    (hpost : posts.get? l1.length = some postQ) :
    computeNetChangeSol (mkBalRecord (l1 ++ w :: l2) pres posts) w
      = .ok ((postQ - preQ) / 1000000000)
    ∧ parse_transaction (some (rpcResp
        (mkBalRecord ["W1"] [2000000000] [1500000000]))) sig "W1"
      = .ok (some ⟨"N/A", sig, "Unknown", 0, Json.str "N/A", -(1/2), []⟩) := by
  constructor
  · rw [computeNetChangeSol_mkBalRecord, findWalletIndex_found l1 l2 w hw 0]
    simp [Bind.bind, Except.bind, itemAt_map_num pres _ _ hpre,
          itemAt_map_num posts _ _ hpost, Json.asNum, pure, Except.pure]
  · with_unfolding_all rfl

/-- Witness for C5 at concrete snapshots (wallet at index 1). -/
theorem net_change_sol_witness :
    computeNetChangeSol (mkBalRecord (["A"] ++ "W" :: [])
        [0, 2000000000] [0, 1500000000]) "W"
      = .ok ((1500000000 - 2000000000) / 1000000000)
    ∧ parse_transaction (some (rpcResp
        (mkBalRecord ["W1"] [2000000000] [1500000000]))) "s" "W1"
      = .ok (some ⟨"N/A", "s", "Unknown", 0, Json.str "N/A", -(1/2), []⟩) :=
  net_change_sol_spec ["A"] [] "W" "s" [0, 2000000000] [0, 1500000000]
    2000000000 1500000000 (by decide) rfl rfl

/-- C9.  `net_change_sol` is reported as exactly 0 — not as a missing
value — whenever the wallet is absent from the account keys, or the metadata
guard fails (no `meta`, no `preBalances`, or no `postBalances`). -/
theorem net_change_sol_zero_spec :
    (∀ (accts : List String) (pres posts : List ℚ) (w : String), w ∉ accts →
      computeNetChangeSol (mkBalRecord accts pres posts) w = .ok 0)
    ∧ (∀ (tx : Json) (w : String), tx.hasKey "meta" = .ok false →
      computeNetChangeSol tx w = .ok 0)
    ∧ (∀ (tx meta : Json) (w : String), tx.hasKey "meta" = .ok true →
      tx.item "meta" = .ok meta → meta.hasKey "preBalances" = .ok false →
      computeNetChangeSol tx w = .ok 0)
    ∧ (∀ (tx meta : Json) (w : String), tx.hasKey "meta" = .ok true →
      tx.item "meta" = .ok meta → meta.hasKey "preBalances" = .ok true →
      meta.hasKey "postBalances" = .ok false →
      computeNetChangeSol tx w = .ok 0) := by
  refine ⟨?_, ?_, ?_, ?_⟩
  · intro accts pres posts w hw
    rw [computeNetChangeSol_mkBalRecord, findWalletIndex_not_found accts w hw 0]
    simp [Bind.bind, Except.bind, pure, Except.pure]
  · intro tx w h
    simp [computeNetChangeSol, h, Bind.bind, Except.bind, pure, Except.pure]
  · intro tx meta w h1 h2 h3
    simp [computeNetChangeSol, h1, h2, h3, Bind.bind, Except.bind, pure, Except.pure]
  · intro tx meta w h1 h2 h3 h4
    simp [computeNetChangeSol, h1, h2, h3, h4, Bind.bind, Except.bind, pure, Except.pure]

/-- Witness for C9: a record whose account keys do not include the wallet. -/
theorem net_change_sol_zero_witness :
    computeNetChangeSol (mkBalRecord ["A", "B"] [5] [9]) "W" = .ok 0 :=
  net_change_sol_zero_spec.1 ["A", "B"] [5] [9] "W" (by decide)

/-!
## Block time claims
-/

/-- On a minimal record, `parse_transaction` is the date computation wrapped
with the fixed remaining fields. -/
theorem parse_mkTimeRecord (bt : Json) (sig w : String) :
    parse_transaction (some (rpcResp (mkTimeRecord bt))) sig w
      = (computeDate bt) >>= fun date =>
          pure (some ⟨date, sig, "Unknown", 0, Json.str "N/A", 0, []⟩) := rfl

/-- Counterexample to C6: on a record whose block time field is absent
altogether, `parse_transaction` raises a `KeyError` instead of rendering
`"N/A"` (the claim expects a summary whose timestamp is `"N/A"`). -/
theorem blocktime_counterexample :
    parse_transaction (some (rpcResp noBlockTimeRecord)) "s" "w"
      = .error "KeyError: blockTime" := by
  with_unfolding_all rfl

/-- C6 as amended.  A present-but-null block time renders `"N/A"`, as does a
present-but-zero one (Python falsiness); a present, nonzero numeric block
time is formatted from its value; but an absent block time field makes the
parser raise a `KeyError` rather than render `"N/A"`. -/
theorem blocktime_spec :
    (∀ sig w, parse_transaction (some (rpcResp (mkTimeRecord Json.null))) sig w
      = .ok (some ⟨"N/A", sig, "Unknown", 0, Json.str "N/A", 0, []⟩))
    ∧ (∀ sig w, parse_transaction (some (rpcResp (mkTimeRecord (Json.num 0)))) sig w
      = .ok (some ⟨"N/A", sig, "Unknown", 0, Json.str "N/A", 0, []⟩))
    ∧ (∀ (sig w : String) (q : ℚ), q ≠ 0 →
      parse_transaction (some (rpcResp (mkTimeRecord (Json.num q)))) sig w
        = .ok (some ⟨formatTimestamp q, sig, "Unknown", 0, Json.str "N/A", 0, []⟩))
    ∧ (∀ sig w, parse_transaction (some (rpcResp noBlockTimeRecord)) sig w
      = .error "KeyError: blockTime") := by
  refine ⟨fun sig w => by with_unfolding_all rfl,
          fun sig w => by with_unfolding_all rfl, ?_,
          fun sig w => by with_unfolding_all rfl⟩
  intro sig w q hq
  rw [parse_mkTimeRecord]
  simp [computeDate, Json.truthy, hq, Json.asNum, Bind.bind, Except.bind,
        pure, Except.pure]

/-- Witness for C6 (amended) at block time 1700000000. -/
theorem blocktime_witness :
    parse_transaction (some (rpcResp (mkTimeRecord (Json.num 1700000000)))) "s" "w"
      = .ok (some ⟨formatTimestamp 1700000000, "s", "Unknown", 0,
                   Json.str "N/A", 0, []⟩) :=
  blocktime_spec.2.2.1 "s" "w" 1700000000 (by norm_num)

/-!
## Token delta claims
-/

/-- On a token record, `computeTokenDeltas` is the loop over the positional
pairing of the two snapshot lists. -/
theorem computeTokenDeltas_mkTokRecord (pres posts : List Json) (w : String) :
    computeTokenDeltas (mkTokRecord pres posts) w
      = tokenDeltaLoop w (pres.zip posts) [] := rfl

/-- `zip` ignores the tail of the right list beyond the left list's length. -/
theorem zip_right_extra {α β : Type} (xs : List α) (ys extra : List β)
    (h : xs.length ≤ ys.length) : xs.zip (ys ++ extra) = xs.zip ys := by
  induction xs generalizing ys with
  | nil => simp
  | cons x xs ih =>
      cases ys with
      | nil => simp at h
      | cons y ys =>
          simp only [List.cons_append, List.zip_cons_cons]
          rw [ih ys (by simpa using h)]

/-- `zip` ignores the tail of the left list beyond the right list's length. -/
theorem zip_left_extra {α β : Type} (xs extra : List α) (ys : List β)
    (h : ys.length ≤ xs.length) : (xs ++ extra).zip ys = xs.zip ys := by
  induction xs generalizing ys with
  | nil =>
      cases ys with
      | nil => simp
      | cons y ys => simp at h
  | cons x xs ih =>
      cases ys with
      | nil => simp
      | cons y ys =>
          simp only [List.cons_append, List.zip_cons_cons]
          rw [ih _ (by simpa using h)]

/-- C10.  The per-mint token delta computation pairs the snapshot lists
positionally and only up to the shorter length — appending extra entries to
the longer side never changes the result — and a paired entry contributes
(via a dict update on its mint) exactly when both sides are owned by the
tracked wallet and the delta is nonzero: a foreign pre-owner, a foreign
post-owner, or a zero delta leaves the accumulated dict untouched. -/
theorem token_deltas_spec :
    (∀ (pres posts extra : List Json) (w : String),
      pres.length ≤ posts.length →
      computeTokenDeltas (mkTokRecord pres (posts ++ extra)) w
        = computeTokenDeltas (mkTokRecord pres posts) w)
    ∧ (∀ (pres posts extra : List Json) (w : String),
      posts.length ≤ pres.length →
      computeTokenDeltas (mkTokRecord (pres ++ extra) posts) w
        = computeTokenDeltas (mkTokRecord pres posts) w)
    ∧ (∀ (w o1 mint : String) (u1 : ℚ) (post : Json)
        (rest : List (Json × Json)) (acc : List (PyKey × ℚ)), o1 ≠ w →
      tokenDeltaLoop w ((tokenSnap o1 mint u1, post) :: rest) acc
        = tokenDeltaLoop w rest acc)
    ∧ (∀ (w o2 mint mint2 : String) (u1 u2 : ℚ)
        (rest : List (Json × Json)) (acc : List (PyKey × ℚ)), o2 ≠ w →
      tokenDeltaLoop w ((tokenSnap w mint u1, tokenSnap o2 mint2 u2) :: rest) acc
        = tokenDeltaLoop w rest acc)
    ∧ (∀ (w mint mint2 : String) (u : ℚ)
        (rest : List (Json × Json)) (acc : List (PyKey × ℚ)),
      tokenDeltaLoop w ((tokenSnap w mint u, tokenSnap w mint2 u) :: rest) acc
        = tokenDeltaLoop w rest acc)
    ∧ (∀ (w mint mint2 : String) (u1 u2 : ℚ)
        (rest : List (Json × Json)) (acc : List (PyKey × ℚ)), u2 - u1 ≠ 0 →
      tokenDeltaLoop w ((tokenSnap w mint u1, tokenSnap w mint2 u2) :: rest) acc
        = tokenDeltaLoop w rest (upsert acc (.str mint) (u2 - u1))) := by
  refine ⟨?_, ?_, ?_, ?_, ?_, ?_⟩
  · intro pres posts extra w h
    rw [computeTokenDeltas_mkTokRecord, computeTokenDeltas_mkTokRecord,
        zip_right_extra pres posts extra h]
  · intro pres posts extra w h
    rw [computeTokenDeltas_mkTokRecord, computeTokenDeltas_mkTokRecord,
        zip_left_extra pres extra posts h]
  · intro w o1 mint u1 post rest acc h
    simp [tokenDeltaLoop, tokenSnap, Json.item, Json.eqStr, Bind.bind,
          Except.bind, h]
  · intro w o2 mint mint2 u1 u2 rest acc h
    simp [tokenDeltaLoop, tokenSnap, Json.item, Json.eqStr, Bind.bind,
          Except.bind, h]
  · intro w mint mint2 u rest acc
    simp [tokenDeltaLoop, tokenSnap, Json.item, Json.eqStr, Json.asNum,
          Bind.bind, Except.bind]
  · intro w mint mint2 u1 u2 rest acc h
    simp [tokenDeltaLoop, tokenSnap, Json.item, Json.eqStr, Json.asNum,
          pyKey, Bind.bind, Except.bind, h]

/-- Witness for C10: a trailing unpaired post-snapshot is ignored. -/
theorem token_deltas_witness :
    computeTokenDeltas (mkTokRecord [] ([] ++ [tokenSnap "W" "M" 1])) "W"
      = computeTokenDeltas (mkTokRecord [] []) "W" :=
  token_deltas_spec.1 [] [] [tokenSnap "W" "M" 1] "W" (by decide)
